import Mathlib

set_option maxHeartbeats 4000000

/-!
Verification of the calendar-time library in src/libextra/time.rs: the
Timespec value type with its ordering, and the strptime/strftime
format-string engine.

Modelling conventions:
- Strings are modelled as their character lists; positions are character
  indices.  All inputs and format strings relevant here are ASCII, where
  the source's byte positions and character positions coincide.
- Machine integers (i32/i64) are modelled as Int.  All values arising in
  the code paths verified here are far from the wrap-around boundaries.
- Rust's truncating integer division is Int.tdiv.
- A Rust task failure (an abort raised by an out-of-bounds string index,
  as in match_str's s[i] or char_range_at at the end of the string) is
  modelled by the explicit PRes.bottom outcome, distinct from an Err
  result value.
-/

/-- Outcome of a fallible strptime step.  ok/err mirror Rust's
Result; bottom models a Rust task failure (abort), which in this code
can only arise from an out-of-bounds string index. -/
inductive PRes (α : Type) where
  | ok (val : α)
  | err (msg : String)
  | bottom
deriving DecidableEq

/-- Result chaining, mirroring Rust's Result::and_then; a task failure
propagates (the task never resumes). -/
def PRes.bind {α β : Type} (r : PRes α) (f : α → PRes β) : PRes β :=
  match r with
  | .ok v => f v
  | .err e => .err e
  | .bottom => .bottom

/-- The broken-down calendar record Tm of time.rs (field-for-field). -/
structure Tm where
  tm_sec : Int
  tm_min : Int
  tm_hour : Int
  tm_mday : Int
  tm_mon : Int
  tm_year : Int
  tm_wday : Int
  tm_yday : Int
  tm_isdst : Int
  tm_gmtoff : Int
  tm_zone : String
  tm_nsec : Int
deriving DecidableEq

/-- The all-zero accumulator Tm that do_strptime starts from
(tm_zone is the empty string). -/
def zeroTm : Tm :=
  { tm_sec := 0, tm_min := 0, tm_hour := 0, tm_mday := 0, tm_mon := 0,
    tm_year := 0, tm_wday := 0, tm_yday := 0, tm_isdst := 0,
    tm_gmtoff := 0, tm_zone := "", tm_nsec := 0 }

def NSEC_PER_SEC : Int := 1000000000

/-- The value of a digit character: `range.ch as i32 - '0' as i32`. -/
def digitVal (c : Char) : Int := (c.toNat : Int) - 48

/-- The char returned by the format-string reader at end of input
(`read_char` yields `-1 as char` at eof); it matches no specifier arm,
so parse_type's default arm fires on it.  Modelled by a non-table
replacement character. -/
def readerEofChar : Char := Char.ofNat 0xFFFD

namespace do_strptime

/-- match_str of do_strptime: compares needle bytes against s starting
at pos.  Returns none on the task failure raised by `s[i]` when i runs
past the end of s (this happens whenever every available character
matched but the needle is longer than the rest of the input). -/
def match_str (s : List Char) (pos : Nat) : List Char → Option Bool
  | [] => some true
  | ch :: rest =>
    match s.get? pos with
    | none => none
    | some c => if c ≠ ch then some false else match_str s (pos + 1) rest

/-- match_strs of do_strptime: first table entry whose needle matches.
Outer none = task failure from match_str; some none = no entry matched;
some (some (v, p)) = entry value v, new position p. -/
def match_strs (s : List Char) (pos : Nat) :
    List (String × Int) → Option (Option (Int × Nat))
  | [] => some none
  | (needle, value) :: rest =>
    match match_str s pos needle.toList with
    | none => none
    | some true => some (some (value, pos + needle.length))
    | some false => match_strs s pos rest

/-- The while loop of match_digits: remaining = digits - i, value is the
accumulator.  Each accepted character (digit, or space when ws) advances
pos by one; running out of input or hitting any other character yields
None. -/
def match_digits_go (s : List Char) (ws : Bool) :
    Nat → Nat → Int → Option (Int × Nat)
  | 0, pos, value => some (value, pos)
  | r + 1, pos, value =>
    match s.get? pos with
    | none => none
    | some ch =>
      if '0' ≤ ch ∧ ch ≤ '9' then
        match_digits_go s ws r (pos + 1) (value * 10 + digitVal ch)
      else if ch = ' ' ∧ ws then
        match_digits_go s ws r (pos + 1) value
      else none

/-- match_digits of do_strptime: reads exactly `digits` characters. -/
def match_digits (s : List Char) (pos : Nat) (digits : Nat) (ws : Bool) :
    Option (Int × Nat) :=
  match_digits_go s ws digits pos 0

/-- The loop of match_fractional_seconds, run on the suffix of s at pos
(each step consumes exactly the character at pos).  Digits beyond the
ninth are read but contribute 0 (the multiplier has decayed to 0). -/
def match_fractional_go : List Char → Nat → Int → Int → Int × Nat
  | [], pos, value, _ => (value, pos)
  | ch :: rest, pos, value, multiplier =>
    if '0' ≤ ch ∧ ch ≤ '9' then
      match_fractional_go rest (pos + 1) (value + digitVal ch * multiplier)
        (Int.tdiv multiplier 10)
    else (value, pos)

/-- match_fractional_seconds of do_strptime: variable-length digit run,
first digit scaled by NSEC_PER_SEC/10 = 10^8. -/
def match_fractional_seconds (s : List Char) (pos : Nat) : Int × Nat :=
  match_fractional_go (s.drop pos) pos 0 (Int.tdiv NSEC_PER_SEC 10)

/-- match_digits_in_range of do_strptime: shape first (match_digits),
then the value must lie in [min, max]. -/
def match_digits_in_range (s : List Char) (pos : Nat) (digits : Nat)
    (ws : Bool) (min max : Int) : Option (Int × Nat) :=
  match match_digits s pos digits ws with
  | some (val, pos2) =>
    if min ≤ val ∧ val ≤ max then some (val, pos2) else none
  | none => none

/-- parse_char of do_strptime.  char_range_at(pos) at pos = len is an
out-of-bounds task failure, modelled by bottom. -/
def parse_char (s : List Char) (pos : Nat) (c : Char) : PRes Nat :=
  match s.get? pos with
  | none => .bottom
  | some ch =>
    if c = ch then .ok (pos + 1)
    else .err ("Expected " ++ String.singleton c ++ ", found " ++
               String.singleton ch)

/-- The skip-to-space loop of the Z arm (runs on the suffix of s at
pos): consumes characters up to and including the first space, or to
the end of the input. -/
def skip_to_space : List Char → Nat → Nat
  | [], pos => pos
  | ch :: rest, pos =>
    if ch = ' ' then pos + 1 else skip_to_space rest (pos + 1)

/-- The primitive (non-composite) arms of do_strptime's parse_type,
including the default unknown-specifier arm.  The composite arms live
in parse_type_mid / parse_type below: the source's parse_type calls
itself recursively, but its call graph has depth at most two
('c' calls 'T', which calls primitives), so it is stratified here to
keep every definition structurally recursive. -/
def parse_type_prim (s : List Char) (pos : Nat) (ch : Char) (tm : Tm) :
    PRes (Nat × Tm) :=
  match ch with
  | 'A' =>
    match match_strs s pos [("Sunday", 0), ("Monday", 1), ("Tuesday", 2),
        ("Wednesday", 3), ("Thursday", 4), ("Friday", 5), ("Saturday", 6)] with
    | none => .bottom
    | some (some (v, pos2)) => .ok (pos2, { tm with tm_wday := v })
    | some none => .err "Invalid day"
  | 'a' =>
    match match_strs s pos [("Sun", 0), ("Mon", 1), ("Tue", 2), ("Wed", 3),
        ("Thu", 4), ("Fri", 5), ("Sat", 6)] with
    | none => .bottom
    | some (some (v, pos2)) => .ok (pos2, { tm with tm_wday := v })
    | some none => .err "Invalid day"
  | 'B' =>
    match match_strs s pos [("January", 0), ("February", 1), ("March", 2),
        ("April", 3), ("May", 4), ("June", 5), ("July", 6), ("August", 7),
        ("September", 8), ("October", 9), ("November", 10),
        ("December", 11)] with
    | none => .bottom
    | some (some (v, pos2)) => .ok (pos2, { tm with tm_mon := v })
    | some none => .err "Invalid month"
  | 'b' | 'h' =>
    match match_strs s pos [("Jan", 0), ("Feb", 1), ("Mar", 2), ("Apr", 3),
        ("May", 4), ("Jun", 5), ("Jul", 6), ("Aug", 7), ("Sep", 8),
        ("Oct", 9), ("Nov", 10), ("Dec", 11)] with
    | none => .bottom
    | some (some (v, pos2)) => .ok (pos2, { tm with tm_mon := v })
    | some none => .err "Invalid month"
  | 'C' =>
    match match_digits_in_range s pos 2 false 0 99 with
    | some (v, pos2) =>
      .ok (pos2, { tm with tm_year := tm.tm_year + (v * 100 - 1900) })
    | none => .err "Invalid year"
  | 'd' =>
    match match_digits_in_range s pos 2 false 1 31 with
    | some (v, pos2) => .ok (pos2, { tm with tm_mday := v })
    | none => .err "Invalid day of the month"
  | 'e' =>
    match match_digits_in_range s pos 2 true 1 31 with
    | some (v, pos2) => .ok (pos2, { tm with tm_mday := v })
    | none => .err "Invalid day of the month"
  | 'f' =>
    match match_fractional_seconds s pos with
    | (val, pos2) => .ok (pos2, { tm with tm_nsec := val })
  | 'H' =>
    match match_digits_in_range s pos 2 false 0 23 with
    | some (v, pos2) => .ok (pos2, { tm with tm_hour := v })
    | none => .err "Invalid hour"
  | 'I' =>
    match match_digits_in_range s pos 2 false 1 12 with
    | some (v, pos2) =>
      .ok (pos2, { tm with tm_hour := if v = 12 then 0 else v })
    | none => .err "Invalid hour"
  | 'j' =>
    match match_digits_in_range s pos 3 false 1 366 with
    | some (v, pos2) => .ok (pos2, { tm with tm_yday := v - 1 })
    | none => .err "Invalid day of year"
  | 'k' =>
    match match_digits_in_range s pos 2 true 0 23 with
    | some (v, pos2) => .ok (pos2, { tm with tm_hour := v })
    | none => .err "Invalid hour"
  | 'l' =>
    match match_digits_in_range s pos 2 true 1 12 with
    | some (v, pos2) =>
      .ok (pos2, { tm with tm_hour := if v = 12 then 0 else v })
    | none => .err "Invalid hour"
  | 'M' =>
    match match_digits_in_range s pos 2 false 0 59 with
    | some (v, pos2) => .ok (pos2, { tm with tm_min := v })
    | none => .err "Invalid minute"
  | 'm' =>
    match match_digits_in_range s pos 2 false 1 12 with
    | some (v, pos2) => .ok (pos2, { tm with tm_mon := v - 1 })
    | none => .err "Invalid month"
  | 'n' => (parse_char s pos '\n').bind fun p => .ok (p, tm)
  | 'P' =>
    match match_strs s pos [("am", 0), ("pm", 12)] with
    | none => .bottom
    | some (some (v, pos2)) =>
      .ok (pos2, { tm with tm_hour := tm.tm_hour + v })
    | some none => .err "Invalid hour"
  | 'p' =>
    match match_strs s pos [("AM", 0), ("PM", 12)] with
    | none => .bottom
    | some (some (v, pos2)) =>
      .ok (pos2, { tm with tm_hour := tm.tm_hour + v })
    | some none => .err "Invalid hour"
  | 'S' =>
    match match_digits_in_range s pos 2 false 0 60 with
    | some (v, pos2) => .ok (pos2, { tm with tm_sec := v })
    | none => .err "Invalid second"
  | 't' => (parse_char s pos '\t').bind fun p => .ok (p, tm)
  | 'u' =>
    match match_digits_in_range s pos 1 false 1 7 with
    | some (v, pos2) =>
      .ok (pos2, { tm with tm_wday := if v = 7 then 0 else v })
    | none => .err "Invalid day of week"
  | 'w' =>
    match match_digits_in_range s pos 1 false 0 6 with
    | some (v, pos2) => .ok (pos2, { tm with tm_wday := v })
    | none => .err "Invalid day of week"
  | 'Y' =>
    match match_digits s pos 4 false with
    | some (v, pos2) => .ok (pos2, { tm with tm_year := v - 1900 })
    | none => .err "Invalid year"
  | 'y' =>
    match match_digits_in_range s pos 2 false 0 99 with
    | some (v, pos2) => .ok (pos2, { tm with tm_year := v })
    | none => .err "Invalid year"
  | 'Z' =>
    match match_str s pos "UTC".toList with
    | none => .bottom
    | some true =>
      .ok (pos + 3, { tm with tm_gmtoff := 0, tm_zone := "UTC" })
    | some false =>
      match match_str s pos "GMT".toList with
      | none => .bottom
      | some true =>
        .ok (pos + 3, { tm with tm_gmtoff := 0, tm_zone := "UTC" })
      | some false =>
        -- compatibility with C strptime: the zone name is skipped
        .ok (skip_to_space (s.drop pos) pos, tm)
  | 'z' =>
    match s.get? pos with
    | none => .bottom
    | some c =>
      if c = '+' ∨ c = '-' then
        match match_digits s (pos + 1) 4 false with
        | some (v, pos2) =>
          .ok (pos2, if v = 0 then
                       { tm with tm_gmtoff := 0, tm_zone := "UTC" }
                     else tm)
        | none => .err "Invalid zone offset"
      else .err "Invalid zone offset"
  | '%' => (parse_char s pos '%').bind fun p => .ok (p, tm)
  | other =>
    .err ("unknown formatting type: " ++ String.singleton other)

/-- The depth-one composite arms of do_strptime's parse_type
('D'/'x', 'F', 'R', 'r', 'T'/'X', 'v'), whose sub-specifiers are all
primitive; every other character is delegated to parse_type_prim. -/
def parse_type_mid (s : List Char) (pos : Nat) (ch : Char) (tm : Tm) :
    PRes (Nat × Tm) :=
  match ch with
  | 'D' | 'x' =>
    (parse_type_prim s pos 'm' tm).bind fun (pos, tm) =>
    (parse_char s pos '/').bind fun pos =>
    (parse_type_prim s pos 'd' tm).bind fun (pos, tm) =>
    (parse_char s pos '/').bind fun pos =>
    parse_type_prim s pos 'y' tm
  | 'F' =>
    (parse_type_prim s pos 'Y' tm).bind fun (pos, tm) =>
    (parse_char s pos '-').bind fun pos =>
    (parse_type_prim s pos 'm' tm).bind fun (pos, tm) =>
    (parse_char s pos '-').bind fun pos =>
    parse_type_prim s pos 'd' tm
  | 'R' =>
    (parse_type_prim s pos 'H' tm).bind fun (pos, tm) =>
    (parse_char s pos ':').bind fun pos =>
    parse_type_prim s pos 'M' tm
  | 'r' =>
    (parse_type_prim s pos 'I' tm).bind fun (pos, tm) =>
    (parse_char s pos ':').bind fun pos =>
    (parse_type_prim s pos 'M' tm).bind fun (pos, tm) =>
    (parse_char s pos ':').bind fun pos =>
    (parse_type_prim s pos 'S' tm).bind fun (pos, tm) =>
    (parse_char s pos ' ').bind fun pos =>
    parse_type_prim s pos 'p' tm
  | 'T' | 'X' =>
    (parse_type_prim s pos 'H' tm).bind fun (pos, tm) =>
    (parse_char s pos ':').bind fun pos =>
    (parse_type_prim s pos 'M' tm).bind fun (pos, tm) =>
    (parse_char s pos ':').bind fun pos =>
    parse_type_prim s pos 'S' tm
  | 'v' =>
    (parse_type_prim s pos 'e' tm).bind fun (pos, tm) =>
    (parse_char s pos '-').bind fun pos =>
    (parse_type_prim s pos 'b' tm).bind fun (pos, tm) =>
    (parse_char s pos '-').bind fun pos =>
    parse_type_prim s pos 'Y' tm
  | _ => parse_type_prim s pos ch tm

/-- parse_type of do_strptime.  The source function is recursive; the
only composite whose sub-specifiers are not all primitive is 'c'
(it uses 'T'), handled here on top of parse_type_mid. -/
def parse_type (s : List Char) (pos : Nat) (ch : Char) (tm : Tm) :
    PRes (Nat × Tm) :=
  match ch with
  | 'c' =>
    (parse_type_mid s pos 'a' tm).bind fun (pos, tm) =>
    (parse_char s pos ' ').bind fun pos =>
    (parse_type_mid s pos 'b' tm).bind fun (pos, tm) =>
    (parse_char s pos ' ').bind fun pos =>
    (parse_type_mid s pos 'e' tm).bind fun (pos, tm) =>
    (parse_char s pos ' ').bind fun pos =>
    (parse_type_mid s pos 'T' tm).bind fun (pos, tm) =>
    (parse_char s pos ' ').bind fun pos =>
    parse_type_mid s pos 'Y' tm
  | _ => parse_type_mid s pos ch tm

end do_strptime

/-- The main lock-step loop of do_strptime over the remaining format
characters.  The Rust loop runs while the format reader is not at eof
and pos < s.len(); on loop exit it returns Ok only if pos == len and
the reader is at eof, and otherwise the last stored result, which is
the initial Err "Invalid time" unless a specifier arm failed (in which
case the loop broke returning that field error). -/
def strptime_go (s : List Char) : List Char → Nat → Tm → PRes Tm
  | [], pos, tm =>
    if pos = s.length then .ok tm else .err "Invalid time"
  | fc :: fmt, pos, tm =>
    match s.get? pos with
    | none => .err "Invalid time"
    | some ch =>
      if fc = '%' then
        match fmt with
        | [] =>
          -- the reader is at eof; read_char yields the eof char
          match do_strptime.parse_type s pos readerEofChar tm with
          | .ok (pos2, tm2) => strptime_go s [] pos2 tm2
          | .err e => .err e
          | .bottom => .bottom
        | sc :: fmt2 =>
          match do_strptime.parse_type s pos sc tm with
          | .ok (pos2, tm2) => strptime_go s fmt2 pos2 tm2
          | .err e => .err e
          | .bottom => .bottom
      else
        if fc = ch then strptime_go s fmt (pos + 1) tm
        else .err "Invalid time"

/-- do_strptime of time.rs: walks format and input in lock-step from
position 0 with the all-zero accumulator. -/
def do_strptime (s format : String) : PRes Tm :=
  strptime_go s.toList format.toList 0 zeroTm

-- quick sanity examples against the source's own test values
example : do_strptime "" "" = .ok zeroTm := by decide
example : do_strptime "Fri Feb 13 15:31:30.01234 2009" "%a %b %e %T.%f %Y" =
    .ok { zeroTm with
          tm_sec := 30
          tm_min := 31
          tm_hour := 15
          tm_mday := 13
          tm_mon := 1
          tm_year := 109
          tm_wday := 5
          tm_nsec := 12340000 } := by decide

/-- The Timespec record of time.rs: seconds and nanoseconds since the
epoch (sec: i64, nsec: i32). -/
structure Timespec where
  sec : Int
  nsec : Int
deriving DecidableEq

/-- The lt method of `impl Ord for Timespec`: lexicographic on
(sec, nsec). -/
def Timespec.lt (self other : Timespec) : Bool :=
  self.sec < other.sec ∨ (self.sec = other.sec ∧ self.nsec < other.nsec)

/-- Zero-padded decimal rendering, Rust's `{:0Nd}` format: the pad
zeros go between the sign and the digits. -/
def zeroPad (width : Nat) (n : Int) : String :=
  let sign := if n < 0 then "-" else ""
  let digits := toString n.natAbs
  sign ++ String.mk (List.replicate (width - (sign.length + digits.length)) '0')
       ++ digits

/-- Space-padded decimal rendering, Rust's `{:Nd}` format:
right-aligned, pad spaces before the sign. -/
def spacePad (width : Nat) (n : Int) : String :=
  let core := (if n < 0 then "-" else "") ++ toString n.natAbs
  String.mk (List.replicate (width - core.length) ' ') ++ core

/-- The string produced by the `die` closure of do_strftime's
parse_type for a specifier character its match does not handle.  Note
the source RETURNS this text as the rendered output of the specifier
(format! builds a string; nothing fails).  The apostrophe of the
source text is spliced in as a character code. -/
def strftime_die (ch : Char) : String :=
  "strftime: can" ++ String.singleton (Char.ofNat 39) ++
  "t understand this format " ++ String.singleton ch ++ " "

/-- Modelled from the spec: the Timezone Conversion collaborator's
CalendarTime-to-Instant direction (rust_timegm / rust_mktime, C
runtime code that is not under src/).  The spec treats the
civil-calendar algorithm itself as an out-of-scope primitive, so this
model implements the proleptic-Gregorian days-from-epoch conversion
the collaborator contract describes, honouring the spec's requirement
that the local inverse account for the recorded utc offset.  Only the
seconds component is needed (by strftime's 's' arm). -/
def days_from_civil (y m d : Int) : Int :=
  let yy : Int := if m ≤ 2 then y - 1 else y
  let era : Int := (if 0 ≤ yy then yy else yy - 399).tdiv 400
  let yoe : Int := yy - era * 400
  let mp : Int := (m + 9).tmod 12
  let doy : Int := (153 * mp + 2).tdiv 5 + d - 1
  let doe : Int := yoe * 365 + yoe.tdiv 4 - yoe.tdiv 100 + doy
  era * 146097 + doe - 719468

/-- Modelled from the spec: seconds since epoch for a broken-down
time, as the collaborator's to_instant contract describes
(Tm::to_timespec selects the UTC inverse when tm_gmtoff == 0, else the
local inverse, which must undo the same offset). -/
def to_timespec_sec (tm : Tm) : Int :=
  days_from_civil (tm.tm_year + 1900) (tm.tm_mon + 1) tm.tm_mday * 86400 +
    tm.tm_hour * 3600 + tm.tm_min * 60 + tm.tm_sec -
    (if tm.tm_gmtoff = 0 then 0 else tm.tm_gmtoff)

namespace do_strftime

/-- The primitive arms of do_strftime's parse_type, including the
default arm, which renders the die text (it does not fail).  The
weekday/month name matches on an out-of-range int also fall through to
the die text.  As on the parsing side, the source function's bounded
recursion (composite arms) is stratified into parse_type_mid and
parse_type below. -/
def parse_type_prim (ch : Char) (tm : Tm) : String :=
  match ch with
  | 'A' =>
    if tm.tm_wday = 0 then "Sunday"
    else if tm.tm_wday = 1 then "Monday"
    else if tm.tm_wday = 2 then "Tuesday"
    else if tm.tm_wday = 3 then "Wednesday"
    else if tm.tm_wday = 4 then "Thursday"
    else if tm.tm_wday = 5 then "Friday"
    else if tm.tm_wday = 6 then "Saturday"
    else strftime_die ch
  | 'a' =>
    if tm.tm_wday = 0 then "Sun"
    else if tm.tm_wday = 1 then "Mon"
    else if tm.tm_wday = 2 then "Tue"
    else if tm.tm_wday = 3 then "Wed"
    else if tm.tm_wday = 4 then "Thu"
    else if tm.tm_wday = 5 then "Fri"
    else if tm.tm_wday = 6 then "Sat"
    else strftime_die ch
  | 'B' =>
    if tm.tm_mon = 0 then "January"
    else if tm.tm_mon = 1 then "February"
    else if tm.tm_mon = 2 then "March"
    else if tm.tm_mon = 3 then "April"
    else if tm.tm_mon = 4 then "May"
    else if tm.tm_mon = 5 then "June"
    else if tm.tm_mon = 6 then "July"
    else if tm.tm_mon = 7 then "August"
    else if tm.tm_mon = 8 then "September"
    else if tm.tm_mon = 9 then "October"
    else if tm.tm_mon = 10 then "November"
    else if tm.tm_mon = 11 then "December"
    else strftime_die ch
  | 'b' | 'h' =>
    if tm.tm_mon = 0 then "Jan"
    else if tm.tm_mon = 1 then "Feb"
    else if tm.tm_mon = 2 then "Mar"
    else if tm.tm_mon = 3 then "Apr"
    else if tm.tm_mon = 4 then "May"
    else if tm.tm_mon = 5 then "Jun"
    else if tm.tm_mon = 6 then "Jul"
    else if tm.tm_mon = 7 then "Aug"
    else if tm.tm_mon = 8 then "Sep"
    else if tm.tm_mon = 9 then "Oct"
    else if tm.tm_mon = 10 then "Nov"
    else if tm.tm_mon = 11 then "Dec"
    else strftime_die ch
  | 'C' => zeroPad 2 ((tm.tm_year + 1900).tdiv 100)
  | 'd' => zeroPad 2 tm.tm_mday
  | 'e' => spacePad 2 tm.tm_mday
  | 'f' => zeroPad 9 tm.tm_nsec
  | 'H' => zeroPad 2 tm.tm_hour
  | 'I' =>
    let h := tm.tm_hour
    let h := if h = 0 then 12 else h
    let h := if h > 12 then h - 12 else h
    zeroPad 2 h
  | 'j' => zeroPad 3 (tm.tm_yday + 1)
  | 'k' => spacePad 2 tm.tm_hour
  | 'l' =>
    let h := tm.tm_hour
    let h := if h = 0 then 12 else h
    let h := if h > 12 then h - 12 else h
    spacePad 2 h
  | 'M' => zeroPad 2 tm.tm_min
  | 'm' => zeroPad 2 (tm.tm_mon + 1)
  | 'n' => "\n"
  | 'P' => if tm.tm_hour < 12 then "am" else "pm"
  | 'p' => if tm.tm_hour < 12 then "AM" else "PM"
  | 'S' => zeroPad 2 tm.tm_sec
  | 's' => toString (to_timespec_sec tm)
  | 't' => "\t"
  | 'u' => toString (if tm.tm_wday = 0 then (7 : Int) else tm.tm_wday)
  | 'w' => toString tm.tm_wday
  | 'Y' => toString (tm.tm_year + 1900)
  | 'y' => zeroPad 2 ((tm.tm_year + 1900).tmod 100)
  | 'Z' => tm.tm_zone
  | 'z' =>
    let sign := if tm.tm_gmtoff > 0 then "+" else "-"
    let m0 := (Int.natAbs tm.tm_gmtoff : Int).tdiv 60
    let h := m0.tdiv 60
    let m1 := m0 - h * 60
    sign ++ zeroPad 2 h ++ zeroPad 2 m1
  | '%' => "%"
  | other => strftime_die other

/-- The depth-one composite arms of do_strftime's parse_type (all
sub-specifiers primitive); other characters delegate to
parse_type_prim. -/
def parse_type_mid (ch : Char) (tm : Tm) : String :=
  match ch with
  | 'D' | 'x' =>
    parse_type_prim 'm' tm ++ "/" ++ parse_type_prim 'd' tm ++ "/" ++
    parse_type_prim 'y' tm
  | 'F' =>
    parse_type_prim 'Y' tm ++ "-" ++ parse_type_prim 'm' tm ++ "-" ++
    parse_type_prim 'd' tm
  | 'R' => parse_type_prim 'H' tm ++ ":" ++ parse_type_prim 'M' tm
  | 'r' =>
    parse_type_prim 'I' tm ++ ":" ++ parse_type_prim 'M' tm ++ ":" ++
    parse_type_prim 'S' tm ++ " " ++ parse_type_prim 'p' tm
  | 'T' | 'X' =>
    parse_type_prim 'H' tm ++ ":" ++ parse_type_prim 'M' tm ++ ":" ++
    parse_type_prim 'S' tm
  | 'v' =>
    parse_type_prim 'e' tm ++ "-" ++ parse_type_prim 'b' tm ++ "-" ++
    parse_type_prim 'Y' tm
  | _ => parse_type_prim ch tm

/-- parse_type of do_strftime ('c' is the only composite with a
composite sub-specifier, 'T'). -/
def parse_type (ch : Char) (tm : Tm) : String :=
  match ch with
  | 'c' =>
    parse_type_mid 'a' tm ++ " " ++ parse_type_mid 'b' tm ++ " " ++
    parse_type_mid 'e' tm ++ " " ++ parse_type_mid 'T' tm ++ " " ++
    parse_type_mid 'Y' tm
  | _ => parse_type_mid ch tm

end do_strftime

/-- The output loop of do_strftime: literal characters are copied, a
'%' renders the next character through parse_type; a '%' as the last
format character makes read_char return the eof char, whose rendering
(the die text for it) is still pushed before the loop ends. -/
def strftime_go (tm : Tm) : List Char → String
  | [] => ""
  | fc :: fmt =>
    if fc = '%' then
      match fmt with
      | [] => do_strftime.parse_type readerEofChar tm
      | sc :: fmt2 => do_strftime.parse_type sc tm ++ strftime_go tm fmt2
    else String.singleton fc ++ strftime_go tm fmt

/-- do_strftime of time.rs. -/
def do_strftime (format : String) (tm : Tm) : String :=
  strftime_go tm format.toList

-- sanity examples against the source's own test values (the utc Tm of
-- the tests: Fri Feb 13 23:31:30 2009 UTC, yday 43, nsec 54321)
def utcTestTm : Tm :=
  { tm_sec := 30, tm_min := 31, tm_hour := 23, tm_mday := 13, tm_mon := 1,
    tm_year := 109, tm_wday := 5, tm_yday := 43, tm_isdst := 0,
    tm_gmtoff := 0, tm_zone := "UTC", tm_nsec := 54321 }

example : do_strftime "%c" utcTestTm = "Fri Feb 13 23:31:30 2009" := by decide
example : do_strftime "%s" utcTestTm = "1234567890" := by decide
example : do_strftime "%Y-%m-%dT%H:%M:%SZ" utcTestTm =
    "2009-02-13T23:31:30Z" := by decide
example : do_strftime "%f" utcTestTm = "000054321" := by decide

/-! Helper lemmas -/

theorem str_append_empty (s : String) : s ++ "" = s := by
  cases s with
  | mk data => show String.mk (data ++ []) = String.mk data
               rw [List.append_nil]

/-- The specifier characters do_strftime's parse_type has an arm for. -/
def strftime_known (ch : Char) : Bool :=
  ['A', 'a', 'B', 'b', 'h', 'C', 'c', 'D', 'x', 'd', 'e', 'f', 'F', 'H',
   'I', 'j', 'k', 'l', 'M', 'm', 'n', 'P', 'p', 'R', 'r', 'S', 's', 'T',
   'X', 't', 'u', 'v', 'w', 'Y', 'y', 'Z', 'z', '%'].contains ch

theorem strftime_unknown_renders_die (ch : Char) (tm : Tm)
    (h : strftime_known ch = false) :
    do_strftime.parse_type ch tm = strftime_die ch := by
  unfold do_strftime.parse_type
  split
  · simp [strftime_known] at h
  · unfold do_strftime.parse_type_mid
    split
    any_goals simp [strftime_known] at h
    unfold do_strftime.parse_type_prim
    split
    any_goals simp [strftime_known] at h
    rfl

/-! Claim theorems -/

/-- Claim C1 counterexample: the claim states that formatting a format
string with an unknown specifier is a fatal failure surfaced as an
explicit error result and produces no ordinary output.  In fact
do_strftime always returns a string: for the unknown specifier q the
die closure's text is rendered inline as ordinary output and the call
returns normally. -/
theorem claim_C1_counterexample :
    do_strftime "%q" utcTestTm =
      "strftime: can" ++ String.singleton (Char.ofNat 39) ++
      "t understand this format q " := by decide

/-- Claim C1 (amended): for every specifier character with no arm in
the specifier table and every calendar value, do_strftime returns
normally and renders the diagnostic text of the die closure in place
of the specifier; no error result is produced and nothing aborts. -/
theorem claim_C1_amended (ch : Char) (tm : Tm)
    (h : strftime_known ch = false) :
    do_strftime (String.mk ['%', ch]) tm = strftime_die ch := by
  show do_strftime.parse_type ch tm ++ strftime_go tm [] = strftime_die ch
  rw [strftime_unknown_renders_die ch tm h]
  exact str_append_empty _

/-- Claim C1 witness: the amended theorem applied at the concrete
unknown specifier q. -/
theorem claim_C1_witness :
    do_strftime (String.mk ['%', 'q']) zeroTm = strftime_die 'q' :=
  claim_C1_amended 'q' zeroTm (by decide)

/-- Claim C2: the claim states every strptime failure, including an
input that ends partway through a name-table match or a composite's
literal separator, is a recoverable error value rather than an abort.
In fact both situations index past the end of the input (s[i] in
match_str; char_range_at in parse_char) and raise a Rust task failure,
modelled by bottom: "Fr" against "%a" dies inside the "Friday" needle,
and "15:31" against "%T" dies at the second ':' separator. -/
theorem claim_C2_truncated_input_aborts :
    do_strptime "Fr" "%a" = PRes.bottom ∧
    do_strptime "15:31" "%T" = PRes.bottom := by
  decide

/-- Claim C3: success requires consuming the whole format and the
whole input simultaneously.  parse("","") yields the all-zero
accumulator; the spec's short-input example leaves the format
unconsumed and fails with the generic error; trailing input after a
fully consumed format fails likewise; and in general any leftover
input with an exhausted format, or leftover format with an exhausted
input, is the generic "Invalid time" failure. -/
theorem claim_C3_full_consumption :
    do_strptime "" "" = PRes.ok zeroTm ∧
    do_strptime "Fri Feb 13 15:31:30" "%a %b %e %T.%f %Y" =
      PRes.err "Invalid time" ∧
    do_strptime "Fri Feb 13 15:31:30.01234 2009 " "%a %b %e %T.%f %Y" =
      PRes.err "Invalid time" ∧
    (∀ s : String, s ≠ "" → do_strptime s "" = PRes.err "Invalid time") ∧
    (∀ f : String, f ≠ "" → do_strptime "" f = PRes.err "Invalid time") := by
  have hconc : do_strptime "" "" = PRes.ok zeroTm ∧
      do_strptime "Fri Feb 13 15:31:30" "%a %b %e %T.%f %Y" =
        PRes.err "Invalid time" ∧
      do_strptime "Fri Feb 13 15:31:30.01234 2009 " "%a %b %e %T.%f %Y" =
        PRes.err "Invalid time" := by decide
  refine ⟨hconc.1, hconc.2.1, hconc.2.2, ?_, ?_⟩
  · intro s hs
    cases s with
    | mk data =>
      cases data with
      | nil => exact absurd rfl hs
      | cons c cs => simp [do_strptime, strptime_go]
  · intro f hf
    cases f with
    | mk data =>
      cases data with
      | nil => exact absurd rfl hf
      | cons c cs => simp [do_strptime, strptime_go]

/-- Claim C3 witness: the two universally quantified clauses applied
at concrete nonempty strings. -/
theorem claim_C3_witness :
    do_strptime "x" "" = PRes.err "Invalid time" ∧
    do_strptime "" "%d" = PRes.err "Invalid time" :=
  ⟨claim_C3_full_consumption.2.2.2.1 "x" (by decide),
   claim_C3_full_consumption.2.2.2.2 "%d" (by decide)⟩

/-- Claim C5 counterexample: the claim states that "360" against
"%Y-%m-%d" is rejected by range validation with the digit count fully
matched.  In fact the year arm's match_digits does not fully match:
it needs 4 digits and only 3 characters exist, so the rejection is
shape validation (the %Y arm performs no range check at all), though
the returned error is indeed the year-field error. -/
theorem claim_C5_counterexample :
    do_strptime.match_digits ("360".toList) 0 4 false = none ∧
    do_strptime "360" "%Y-%m-%d" = PRes.err "Invalid year" := by
  decide

/-- Claim C5 (amended): parsing "360" against "%Y-%m-%d" fails in the
year field with the year-field error, but by shape validation: %Y
requires exactly 4 digits and match_digits finds only 3.  Range
rejection after a fully matched digit count does exist, but for the
range-bounded fields: "13" fully matches two digits yet is rejected
by %m's 1..12 range. -/
theorem claim_C5_amended :
    do_strptime "360" "%Y-%m-%d" = PRes.err "Invalid year" ∧
    do_strptime.match_digits ("360".toList) 0 4 false = none ∧
    do_strptime.match_digits ("13".toList) 0 2 false = some (13, 2) ∧
    do_strptime.match_digits_in_range ("13".toList) 0 2 false 1 12 = none ∧
    do_strptime "13" "%m" = PRes.err "Invalid month" := by
  decide

/-- Claim C7: parse-time range boundaries: %S accepts 00..60 so the
leap second "60" is valid and "61" is rejected with the second-field
error; %j accepts "001".."366" stored zero-based and rejects "000"
and "367" with the day-of-year error. -/
theorem claim_C7_range_boundaries :
    do_strptime "60" "%S" = PRes.ok { zeroTm with tm_sec := 60 } ∧
    do_strptime "61" "%S" = PRes.err "Invalid second" ∧
    do_strptime "001" "%j" = PRes.ok { zeroTm with tm_yday := 0 } ∧
    do_strptime "366" "%j" = PRes.ok { zeroTm with tm_yday := 365 } ∧
    do_strptime "000" "%j" = PRes.err "Invalid day of year" ∧
    do_strptime "367" "%j" = PRes.err "Invalid day of year" := by
  decide

/-- Claim C8: the literal scenario: parsing
"Fri Feb 13 15:31:30.01234 2009" against "%a %b %e %T.%f %Y" yields
weekday 5, month 1, day 13, 15:31:30, year offset 109 and nanoseconds
12340000; the fractional-second digits 01234 are scaled by decreasing
powers of ten from 10^8. -/
theorem claim_C8_literal_scenario :
    do_strptime "Fri Feb 13 15:31:30.01234 2009" "%a %b %e %T.%f %Y" =
      PRes.ok { zeroTm with
                tm_sec := 30
                tm_min := 31
                tm_hour := 15
                tm_mday := 13
                tm_mon := 1
                tm_year := 109
                tm_wday := 5
                tm_nsec := 12340000 } ∧
    do_strptime.match_fractional_seconds ("01234".toList) 0 =
      (12340000, 5) := by
  decide

/-- Claim C9: the ordering on Timespec is lexicographic on
(sec, nsec): the concrete chain A < B < C < D holds, D equals E, and
the order is total and transitive over all Timespec values. -/
theorem claim_C9_timespec_order :
    Timespec.lt ⟨-2, 1⟩ ⟨-1, 2⟩ = true ∧
    Timespec.lt ⟨-1, 2⟩ ⟨1, 2⟩ = true ∧
    Timespec.lt ⟨1, 2⟩ ⟨2, 1⟩ = true ∧
    (⟨2, 1⟩ : Timespec) = ⟨2, 1⟩ ∧
    (∀ a b : Timespec, a.lt b = true ∨ b.lt a = true ∨ a = b) ∧
    (∀ a b c : Timespec,
      a.lt b = true → b.lt c = true → a.lt c = true) := by
  have hchain : Timespec.lt ⟨-2, 1⟩ ⟨-1, 2⟩ = true ∧
      Timespec.lt ⟨-1, 2⟩ ⟨1, 2⟩ = true ∧
      Timespec.lt ⟨1, 2⟩ ⟨2, 1⟩ = true := by decide
  refine ⟨hchain.1, hchain.2.1, hchain.2.2, rfl, ?_, ?_⟩
  · intro a b
    obtain ⟨as, an⟩ := a
    obtain ⟨bs, bn⟩ := b
    simp only [Timespec.lt, Timespec.mk.injEq, Bool.or_eq_true,
      Bool.and_eq_true, decide_eq_true_eq]
    omega
  · intro a b c hab hbc
    obtain ⟨as, an⟩ := a
    obtain ⟨bs, bn⟩ := b
    obtain ⟨cs, cn⟩ := c
    simp only [Timespec.lt, Bool.or_eq_true, Bool.and_eq_true,
      decide_eq_true_eq] at hab hbc ⊢
    omega

/-- Claim C9 witness: transitivity applied along the concrete chain:
A < C follows from A < B and B < C. -/
theorem claim_C9_witness : Timespec.lt ⟨-2, 1⟩ ⟨1, 2⟩ = true :=
  claim_C9_timespec_order.2.2.2.2.2 ⟨-2, 1⟩ ⟨-1, 2⟩ ⟨1, 2⟩
    (by decide) (by decide)

/-! Lemmas about match_digits on four available digit characters, and
rfl equations exposing the Y and z arms of parse_type. -/

theorem match_digits_go_digit (s : List Char) (ws : Bool) (r pos : Nat)
    (value : Int) (c : Char) (hget : s.get? pos = some c)
    (hc : '0' ≤ c ∧ c ≤ '9') :
    do_strptime.match_digits_go s ws (r + 1) pos value =
      do_strptime.match_digits_go s ws r (pos + 1)
        (value * 10 + digitVal c) := by
  simp only [do_strptime.match_digits_go, hget]
  rw [if_pos hc]

theorem match_digits_four (s : List Char) (pos : Nat) (c1 c2 c3 c4 : Char)
    (g1 : s.get? pos = some c1) (g2 : s.get? (pos + 1) = some c2)
    (g3 : s.get? (pos + 2) = some c3) (g4 : s.get? (pos + 3) = some c4)
    (h1 : '0' ≤ c1 ∧ c1 ≤ '9') (h2 : '0' ≤ c2 ∧ c2 ≤ '9')
    (h3 : '0' ≤ c3 ∧ c3 ≤ '9') (h4 : '0' ≤ c4 ∧ c4 ≤ '9') :
    do_strptime.match_digits s pos 4 false =
      some (1000 * digitVal c1 + 100 * digitVal c2 + 10 * digitVal c3 +
            digitVal c4, pos + 4) := by
  have g3b : s.get? (pos + 1 + 1) = some c3 := by
    have hp : pos + 1 + 1 = pos + 2 := by omega
    rwa [hp]
  have g4b : s.get? (pos + 1 + 1 + 1) = some c4 := by
    have hp : pos + 1 + 1 + 1 = pos + 3 := by omega
    rwa [hp]
  have e1 := match_digits_go_digit s false 3 pos 0 c1 g1 h1
  have e2 := match_digits_go_digit s false 2 (pos + 1)
    (0 * 10 + digitVal c1) c2 g2 h2
  have e3 := match_digits_go_digit s false 1 (pos + 1 + 1)
    ((0 * 10 + digitVal c1) * 10 + digitVal c2) c3 g3b h3
  have e4 := match_digits_go_digit s false 0 (pos + 1 + 1 + 1)
    (((0 * 10 + digitVal c1) * 10 + digitVal c2) * 10 + digitVal c3)
    c4 g4b h4
  have chain := ((e1.trans e2).trans e3).trans e4
  rw [show (3 : Nat) + 1 = 4 from rfl] at chain
  show do_strptime.match_digits_go s false 4 pos 0 = _
  rw [chain]
  show some
    ((((0 * 10 + digitVal c1) * 10 + digitVal c2) * 10 + digitVal c3) * 10 +
      digitVal c4, pos + 1 + 1 + 1 + 1) = _
  have harith : (((0 * 10 + digitVal c1) * 10 + digitVal c2) * 10 +
      digitVal c3) * 10 + digitVal c4 =
      1000 * digitVal c1 + 100 * digitVal c2 + 10 * digitVal c3 +
      digitVal c4 := by ring
  have hpos : pos + 1 + 1 + 1 + 1 = pos + 4 := by omega
  rw [harith, hpos]

theorem parse_type_Y_eq (s : List Char) (pos : Nat) (tm : Tm) :
    do_strptime.parse_type s pos 'Y' tm =
      match do_strptime.match_digits s pos 4 false with
      | some (v, pos2) => PRes.ok (pos2, { tm with tm_year := v - 1900 })
      | none => PRes.err "Invalid year" := rfl

theorem parse_type_z_eq (s : List Char) (pos : Nat) (tm : Tm) :
    do_strptime.parse_type s pos 'z' tm =
      match s.get? pos with
      | none => PRes.bottom
      | some c =>
        if c = '+' ∨ c = '-' then
          match do_strptime.match_digits s (pos + 1) 4 false with
          | some (v, pos2) =>
            PRes.ok (pos2,
              if v = 0 then { tm with tm_gmtoff := 0, tm_zone := "UTC" }
              else tm)
          | none => PRes.err "Invalid zone offset"
        else PRes.err "Invalid zone offset" := rfl

/-- Claim C4: the %z arm succeeds exactly on a sign character followed
by four digits (consuming exactly those five characters) and fails
with the zone-offset error otherwise; only an all-zero digit value is
recorded (offset 0, zone "UTC"), any other value leaves the
accumulator untouched, so from the zeroed accumulator "-0000" and
"-0800" both parse and both yield utc offset 0. -/
theorem claim_C4_zone_offset :
    do_strptime "-0000" "%z" =
      PRes.ok { zeroTm with tm_gmtoff := 0, tm_zone := "UTC" } ∧
    do_strptime "-0800" "%z" = PRes.ok zeroTm ∧
    do_strptime "0000" "%z" = PRes.err "Invalid zone offset" ∧
    do_strptime "-080" "%z" = PRes.err "Invalid zone offset" ∧
    do_strptime "-08a0" "%z" = PRes.err "Invalid zone offset" ∧
    (∀ c0 c1 c2 c3 c4 : Char, ∀ rest : List Char, ∀ tm : Tm,
      (c0 = '+' ∨ c0 = '-') →
      ('0' ≤ c1 ∧ c1 ≤ '9') → ('0' ≤ c2 ∧ c2 ≤ '9') →
      ('0' ≤ c3 ∧ c3 ≤ '9') → ('0' ≤ c4 ∧ c4 ≤ '9') →
      do_strptime.parse_type (c0 :: c1 :: c2 :: c3 :: c4 :: rest) 0 'z' tm =
        PRes.ok (5, if 1000 * digitVal c1 + 100 * digitVal c2 +
                       10 * digitVal c3 + digitVal c4 = 0 then
                      { tm with tm_gmtoff := 0, tm_zone := "UTC" }
                    else tm)) ∧
    (∀ (s : List Char) (pos : Nat) (tm : Tm) (e : String),
      do_strptime.parse_type s pos 'z' tm = PRes.err e →
      e = "Invalid zone offset") := by
  have hconc : do_strptime "-0000" "%z" =
      PRes.ok { zeroTm with tm_gmtoff := 0, tm_zone := "UTC" } ∧
      do_strptime "-0800" "%z" = PRes.ok zeroTm ∧
      do_strptime "0000" "%z" = PRes.err "Invalid zone offset" ∧
      do_strptime "-080" "%z" = PRes.err "Invalid zone offset" ∧
      do_strptime "-08a0" "%z" = PRes.err "Invalid zone offset" := by decide
  refine ⟨hconc.1, hconc.2.1, hconc.2.2.1, hconc.2.2.2.1, hconc.2.2.2.2,
    ?_, ?_⟩
  · intro c0 c1 c2 c3 c4 rest tm hs h1 h2 h3 h4
    have hmd := match_digits_four (c0 :: c1 :: c2 :: c3 :: c4 :: rest) 1
      c1 c2 c3 c4 rfl rfl rfl rfl h1 h2 h3 h4
    rw [parse_type_z_eq]
    show (if c0 = '+' ∨ c0 = '-' then _ else _) = _
    rw [if_pos hs]
    rw [show (0 : Nat) + 1 = 1 from rfl, hmd]
  · intro s pos tm e h
    cases hget : s.get? pos with
    | none =>
      simp only [parse_type_z_eq, hget] at h
      exact absurd h (by simp)
    | some c =>
      simp only [parse_type_z_eq, hget] at h
      by_cases hc : c = '+' ∨ c = '-'
      · rw [if_pos hc] at h
        cases hmd : do_strptime.match_digits s (pos + 1) 4 false with
        | none =>
          rw [hmd] at h
          have := (PRes.err.injEq _ _).mp h
          exact this.symm
        | some vp =>
          obtain ⟨v, p⟩ := vp
          rw [hmd] at h
          exact absurd h (by simp)
      · rw [if_neg hc] at h
        have := (PRes.err.injEq _ _).mp h
        exact this.symm

/-- Claim C4 witness: the universal success clause applied at the
concrete sign and digits of "+1234" (a nonzero value, so the
accumulator is unchanged), and the failure clause at a concrete
error. -/
theorem claim_C4_witness :
    do_strptime.parse_type ('+' :: '1' :: '2' :: '3' :: '4' :: [])
      0 'z' zeroTm = PRes.ok (5, zeroTm) :=
  ((claim_C4_zone_offset.2.2.2.2.2.1 '+' '1' '2' '3' '4' [] zeroTm
    (Or.inl rfl) (by decide) (by decide) (by decide) (by decide)).trans
    (by decide))

/-- Claim C10: %Y performs no range validation: any run of exactly
four digits is accepted (leading spaces are not tolerated: ws is
false for %Y) and stores year = value - 1900, so "0000" yields year
offset -1900; the %Y arm's failure branch is reachable only when
match_digits finds fewer than four digit characters, and its error is
the year-field error. -/
theorem claim_C10_year_no_range_check :
    do_strptime "0000" "%Y" = PRes.ok { zeroTm with tm_year := -1900 } ∧
    do_strptime " 000" "%Y" = PRes.err "Invalid year" ∧
    (∀ c1 c2 c3 c4 : Char, ∀ rest : List Char, ∀ tm : Tm,
      ('0' ≤ c1 ∧ c1 ≤ '9') → ('0' ≤ c2 ∧ c2 ≤ '9') →
      ('0' ≤ c3 ∧ c3 ≤ '9') → ('0' ≤ c4 ∧ c4 ≤ '9') →
      do_strptime.parse_type (c1 :: c2 :: c3 :: c4 :: rest) 0 'Y' tm =
        PRes.ok (4, { tm with tm_year := (1000 * digitVal c1 +
          100 * digitVal c2 + 10 * digitVal c3 + digitVal c4 - 1900) })) ∧
    (∀ (s : List Char) (pos : Nat) (tm : Tm) (e : String),
      do_strptime.parse_type s pos 'Y' tm = PRes.err e →
      e = "Invalid year" ∧
      do_strptime.match_digits s pos 4 false = none) := by
  have hconc : do_strptime "0000" "%Y" =
      PRes.ok { zeroTm with tm_year := -1900 } ∧
      do_strptime " 000" "%Y" = PRes.err "Invalid year" := by decide
  refine ⟨hconc.1, hconc.2, ?_, ?_⟩
  · intro c1 c2 c3 c4 rest tm h1 h2 h3 h4
    have hmd := match_digits_four (c1 :: c2 :: c3 :: c4 :: rest) 0
      c1 c2 c3 c4 rfl rfl rfl rfl h1 h2 h3 h4
    rw [parse_type_Y_eq, hmd]
  · intro s pos tm e h
    rw [parse_type_Y_eq] at h
    cases hmd : do_strptime.match_digits s pos 4 false with
    | none =>
      rw [hmd] at h
      have := (PRes.err.injEq _ _).mp h
      exact ⟨this.symm, rfl⟩
    | some vp =>
      obtain ⟨v, p⟩ := vp
      rw [hmd] at h
      exact absurd h (by simp)

/-- Claim C10 witness: the universal success clause applied at the
concrete digits "9999": year becomes 9999 - 1900. -/
theorem claim_C10_witness :
    do_strptime.parse_type ('9' :: '9' :: '9' :: '9' :: []) 0 'Y' zeroTm =
      PRes.ok (4, { zeroTm with tm_year := 8099 }) :=
  ((claim_C10_year_no_range_check.2.2.1 '9' '9' '9' '9' [] zeroTm
    (by decide) (by decide) (by decide) (by decide)).trans (by decide))

/-- Claim C6 counterexample: the claim excepts only %Z and %z from the
format/parse round trip, but %s also fails it: the specifier table has
a format arm for 's' (seconds since epoch, via the clock-conversion
collaborator) while do_strptime's parse_type has no 's' arm, so
parsing the rendered text back under "%s" fails with the
unknown-specifier error instead of reproducing any field. -/
theorem claim_C6_counterexample :
    do_strptime (do_strftime "%s" utcTestTm) "%s" =
      PRes.err "unknown formatting type: s" := by decide

/-- Claim C6 (amended): for every primitive specifier in the table
except %Z, %z and %s, and a representative value, parsing the
formatted text back under the same specifier reproduces the
corresponding field of the representative (starting from the zeroed
accumulator); for %n, %t and %% there is no corresponding field and
the round trip succeeds leaving the accumulator untouched. -/
theorem claim_C6_roundtrip :
    do_strptime (do_strftime "%Y" { zeroTm with tm_year := 109 }) "%Y" =
      PRes.ok { zeroTm with tm_year := 109 } ∧
    do_strptime (do_strftime "%y" { zeroTm with tm_year := 9 }) "%y" =
      PRes.ok { zeroTm with tm_year := 9 } ∧
    do_strptime (do_strftime "%C" { zeroTm with tm_year := 100 }) "%C" =
      PRes.ok { zeroTm with tm_year := 100 } ∧
    do_strptime (do_strftime "%m" { zeroTm with tm_mon := 1 }) "%m" =
      PRes.ok { zeroTm with tm_mon := 1 } ∧
    do_strptime (do_strftime "%d" { zeroTm with tm_mday := 13 }) "%d" =
      PRes.ok { zeroTm with tm_mday := 13 } ∧
    do_strptime (do_strftime "%e" { zeroTm with tm_mday := 3 }) "%e" =
      PRes.ok { zeroTm with tm_mday := 3 } ∧
    do_strptime (do_strftime "%H" { zeroTm with tm_hour := 15 }) "%H" =
      PRes.ok { zeroTm with tm_hour := 15 } ∧
    do_strptime (do_strftime "%I" { zeroTm with tm_hour := 3 }) "%I" =
      PRes.ok { zeroTm with tm_hour := 3 } ∧
    do_strptime (do_strftime "%k" { zeroTm with tm_hour := 3 }) "%k" =
      PRes.ok { zeroTm with tm_hour := 3 } ∧
    do_strptime (do_strftime "%l" { zeroTm with tm_hour := 3 }) "%l" =
      PRes.ok { zeroTm with tm_hour := 3 } ∧
    do_strptime (do_strftime "%M" { zeroTm with tm_min := 31 }) "%M" =
      PRes.ok { zeroTm with tm_min := 31 } ∧
    do_strptime (do_strftime "%S" { zeroTm with tm_sec := 30 }) "%S" =
      PRes.ok { zeroTm with tm_sec := 30 } ∧
    do_strptime (do_strftime "%f" { zeroTm with tm_nsec := 12340000 }) "%f" =
      PRes.ok { zeroTm with tm_nsec := 12340000 } ∧
    do_strptime (do_strftime "%j" { zeroTm with tm_yday := 43 }) "%j" =
      PRes.ok { zeroTm with tm_yday := 43 } ∧
    do_strptime (do_strftime "%A" { zeroTm with tm_wday := 5 }) "%A" =
      PRes.ok { zeroTm with tm_wday := 5 } ∧
    do_strptime (do_strftime "%a" { zeroTm with tm_wday := 5 }) "%a" =
      PRes.ok { zeroTm with tm_wday := 5 } ∧
    do_strptime (do_strftime "%B" { zeroTm with tm_mon := 1 }) "%B" =
      PRes.ok { zeroTm with tm_mon := 1 } ∧
    do_strptime (do_strftime "%b" { zeroTm with tm_mon := 1 }) "%b" =
      PRes.ok { zeroTm with tm_mon := 1 } ∧
    do_strptime (do_strftime "%h" { zeroTm with tm_mon := 1 }) "%h" =
      PRes.ok { zeroTm with tm_mon := 1 } ∧
    do_strptime (do_strftime "%p" zeroTm) "%p" = PRes.ok zeroTm ∧
    do_strptime (do_strftime "%P" zeroTm) "%P" = PRes.ok zeroTm ∧
    do_strptime (do_strftime "%n" zeroTm) "%n" = PRes.ok zeroTm ∧
    do_strptime (do_strftime "%t" zeroTm) "%t" = PRes.ok zeroTm ∧
    do_strptime (do_strftime "%%" zeroTm) "%%" = PRes.ok zeroTm ∧
    do_strptime (do_strftime "%u" { zeroTm with tm_wday := 5 }) "%u" =
      PRes.ok { zeroTm with tm_wday := 5 } ∧
    do_strptime (do_strftime "%w" { zeroTm with tm_wday := 5 }) "%w" =
      PRes.ok { zeroTm with tm_wday := 5 } := by
  decide
